import Mathlib

/-!
# Verification of the sz-mt5stream streaming/aggregation core

Shallow embedding of `src/sz_mt5stream/core/stream.py`, `src/sz_mt5stream/core/connection.py`
and `src/sz_mt5stream/utils.py`.

Modelling conventions:
* Instants are Unix timestamps in whole seconds (`Nat`); the Python code only ever handles
  integer-second timestamps here (`tick.time`, `int(...timestamp())`), and all `datetime`
  manipulation is done on tz-aware UTC datetimes, so `dt.replace(second=0, microsecond=0)`
  is `ts - ts % 60`, `dt.minute` is `ts / 60 % 60`, `dt.replace(minute=m, second=0,
  microsecond=0)` is `ts - ts % 3600 + m * 60`, and
  `dt.replace(hour=0, minute=0, second=0, microsecond=0)` is `ts - ts % 86400`.
* Price floats are carried opaquely as `Int`: the code never computes on them, it only
  copies them between frames, so no floating-point semantics is needed.
* The external MetaTrader 5 feed is a collaborator: every feed response that a method reads
  (`symbol_info_tick`, `copy_ticks_from`, `copy_rates_from`, the success of `initialize` /
  `symbol_select`) is passed in as an explicit argument, and the parameters the code would
  send with a request (e.g. the `count` of `copy_rates_from`) are recorded in the result so
  that "a feed request was issued" is observable.
* Python exceptions are `Except String`; an exception raised and swallowed by the source is
  not surfaced.
-/

/-- One tick record as returned by `mt5.copy_ticks_from` and kept in the tick frame
(columns `time, bid, ask, last, volume, time_msc` selected at the end of
`MT5Stream._fetch_new_ticks`). -/
structure RawTick where
  time : Nat
  bid : Int
  ask : Int
  last : Int
  volume : Nat
  time_msc : Nat
deriving DecidableEq

/-- One rate record as returned by `mt5.copy_rates_from` and kept in the bars frame
(columns `time, open, high, low, close, tick_volume, spread, real_volume`).
The Python column `open` is spelled `open_` (Lean keyword). -/
structure Rate where
  time : Nat
  open_ : Int
  high : Int
  low : Int
  close : Int
  tick_volume : Nat
  spread : Nat
  real_volume : Nat
deriving DecidableEq

/-- The result of `mt5.symbol_info_tick`; the stream code only ever reads its `time` field. -/
structure TickInfo where
  time : Nat
deriving DecidableEq

/-- The constructor arguments of `MT5Stream` that the core logic reads (`symbol`,
`rolling_ticks`, `rolling_bars`, `bars_timeframe`).  `bars_timeframe` is
`Optional[Timeframe]` in the source, where `Timeframe` is a `Literal` of strings, hence
`Option String` here. -/
structure StreamConfig where
  symbol : String
  rolling_ticks : Nat
  rolling_bars : Nat
  bars_timeframe : Option String
deriving DecidableEq

/-- The mutable state set up in `MT5Stream.__init__`: `_running`, `_last_tick_msc`,
`_ticks`, `_bars`, `_last_candle_time`. -/
structure StreamState where
  running : Bool
  last_tick_msc : Nat
  ticks : List RawTick
  bars : List Rate
  last_candle_time : Option Nat
deriving DecidableEq

/-- The state produced by `MT5Stream.__init__`. -/
def initState : StreamState :=
  { running := false, last_tick_msc := 0, ticks := [], bars := [], last_candle_time := none }

/-- Python truthiness of `self.bars_timeframe` (`Optional[str]`): `None` and the empty
string are falsy. -/
def pyTruthy : Option String → Bool
  | none => false
  | some s => !s.isEmpty

/-- `MT5Stream._get_period_start` (stream.py lines 193-219).  The method reads
`self.bars_timeframe`; its `else` branch returns the input timestamp unchanged. -/
def getPeriodStart (bars_timeframe : Option String) (timestamp : Nat) : Nat :=
  if bars_timeframe = some "M1" then
    timestamp - timestamp % 60
  else if bars_timeframe = some "M5" then
    -- minute = (dt.minute // 5) * 5; dt.replace(minute=minute, second=0, microsecond=0)
    (timestamp - timestamp % 3600) + (timestamp / 60 % 60 / 5 * 5) * 60
  else if bars_timeframe = some "M15" then
    (timestamp - timestamp % 3600) + (timestamp / 60 % 60 / 15 * 15) * 60
  else if bars_timeframe = some "H1" then
    timestamp - timestamp % 3600
  else if bars_timeframe = some "D1" then
    timestamp - timestamp % 86400
  else
    timestamp

/-- `get_next_candle_time` (utils.py).  Raises `ValueError` on an unsupported timeframe,
modelled as `Except.error`. -/
def get_next_candle_time (current_dt : Nat) (timeframe : String) : Except String Nat :=
  if timeframe = "M1" then
    .ok (current_dt - current_dt % 60 + 60)
  else if timeframe = "M5" then
    let minute := (current_dt / 60 % 60 / 5 + 1) * 5
    if 60 ≤ minute then
      -- (current_dt + timedelta(hours=1)).replace(minute=0, second=0, microsecond=0)
      .ok ((current_dt + 3600) - (current_dt + 3600) % 3600)
    else
      .ok ((current_dt - current_dt % 3600) + minute * 60)
  else if timeframe = "M15" then
    let minute := (current_dt / 60 % 60 / 15 + 1) * 15
    if 60 ≤ minute then
      .ok ((current_dt + 3600) - (current_dt + 3600) % 3600)
    else
      .ok ((current_dt - current_dt % 3600) + minute * 60)
  else if timeframe = "H1" then
    .ok ((current_dt + 3600) - (current_dt + 3600) % 3600)
  else if timeframe = "D1" then
    .ok ((current_dt + 86400) - (current_dt + 86400) % 86400)
  else
    .error ("Unsupported timeframe: " ++ timeframe)

/-- The `MT5_TIMEFRAME` dict from `my_types.py`, as a partial map: indexing with an
unsupported key raises `KeyError` in Python, modelled by `none`.  The numbers are the
MetaTrader 5 timeframe constants. -/
def MT5_TIMEFRAME : String → Option Nat
  | "M1" => some 1
  | "M5" => some 5
  | "M15" => some 15
  | "H1" => some 16385
  | "D1" => some 16408
  | _ => none

/-- The Python slice `xs[-cap:]` (`df.iloc[-cap:]` row-wise).  Note the offbeat case
`cap = 0`: Python's `-0` is `0`, so `xs[-0:]` is `xs[0:]`, the whole sequence — not the
empty one. -/
def pySliceLast {α : Type} (cap : Nat) (xs : List α) : List α :=
  if cap = 0 then xs else xs.drop (xs.length - cap)

/-- The rolling-append pattern shared verbatim by `MT5Stream._append_ticks`
(stream.py lines 182-191, with `cap = rolling_ticks`) and the bar-buffer update in
`MT5Stream._fetch_completed_candles` (lines 275-281, with `cap = rolling_bars`):
if the buffer is empty take a copy of the new frame, else concatenate, then truncate
to the last `cap` rows when the length exceeds `cap`. -/
def rollingAppend {α : Type} (cap : Nat) (buf df_new : List α) : List α :=
  let merged := if buf.isEmpty then df_new else buf ++ df_new
  if cap < merged.length then pySliceLast cap merged else merged

/-- `MT5Stream._fetch_new_ticks` (stream.py lines 155-180).

`_infoTick` is the `mt5.symbol_info_tick` result: the code uses it only to pick the
`request_time` sent to `mt5.copy_ticks_from`; the response to that request is the
`ticksResp` argument, so `_infoTick` does not influence the model.  Returns the updated
state together with the returned frame (column selection at line 180 keeps every field of
`RawTick`, so it is the identity here). -/
def fetchNewTicks (st : StreamState) (_infoTick : Option TickInfo)
    (ticksResp : Option (List RawTick)) : StreamState × List RawTick :=
  match ticksResp with
  | none => (st, [])
  | some ticks =>
    if ticks.isEmpty then (st, [])
    else
      let df := ticks.filter (fun t => st.last_tick_msc < t.time_msc)
      match df with
      | [] => (st, [])
      | t :: rest =>
        ({ st with last_tick_msc := ((t :: rest).getLast (List.cons_ne_nil t rest)).time_msc },
         t :: rest)

/-- What `MT5Stream._fetch_completed_candles` produced: the state after the call, the rows
appended to the bar buffer in this call, and — when the code reached the
`mt5.copy_rates_from` call — the `count` it passed (`none` means no rates request was
issued). -/
structure CandleFetchResult where
  state : StreamState
  appended : List Rate
  ratesRequested : Option Nat
deriving DecidableEq

/-- `MT5Stream._fetch_completed_candles` (stream.py lines 221-283).

`tickOpt` is the `mt5.symbol_info_tick` response, `ratesResp` the `mt5.copy_rates_from`
response.  The `MT5_TIMEFRAME[self.bars_timeframe]` dict lookup at line 244 raises
`KeyError` for a timeframe outside the five supported ones, hence the `Except`.
`df.iloc[:-1]` is `List.dropLast`; the `df["time"]` second-resolution round-trips
(`pd.to_datetime(..., unit="s")` and `astype(int) // 10**9` / `.timestamp()`) are
identities on whole-second timestamps. -/
def fetchCompletedCandles (cfg : StreamConfig) (st : StreamState)
    (tickOpt : Option TickInfo) (ratesResp : Option (List Rate)) :
    Except String CandleFetchResult :=
  match cfg.bars_timeframe with
  | none => .ok ⟨st, [], none⟩
  | some tf =>
    if tf.isEmpty then .ok ⟨st, [], none⟩   -- `if not self.bars_timeframe: return`
    else
      match tickOpt with
      | none => .ok ⟨st, [], none⟩
      | some tick =>
        let current_time := tick.time
        let current_period := getPeriodStart cfg.bars_timeframe current_time
        let boundaryNotCrossed : Bool :=
          match st.last_candle_time with
          | some lct => decide (current_period ≤ getPeriodStart cfg.bars_timeframe lct)
          | none => false
        if boundaryNotCrossed then
          .ok ⟨st, [], none⟩
        else
          match MT5_TIMEFRAME tf with
          | none => .error ("KeyError: " ++ tf)
          | some _mt5_timeframe =>
            let count := match st.last_candle_time with
              | none => cfg.rolling_bars
              | some _ => 5
            match ratesResp with
            | none => .ok ⟨st, [], some count⟩
            | some rates =>
              if rates.isEmpty then .ok ⟨st, [], some count⟩
              else
                let df : List Rate := match st.last_candle_time with
                  | some lct => rates.filter (fun r => lct < r.time)
                  | none => rates
                if df.isEmpty then .ok ⟨st, [], some count⟩
                else
                  let df2 :=
                    if 1 < df.length then
                      match df.getLast? with
                      | some lastRate =>
                        if current_period ≤ getPeriodStart cfg.bars_timeframe lastRate.time
                        then df.dropLast else df
                      | none => df
                    else df
                  match df2.getLast? with
                  | none => .ok ⟨st, [], some count⟩   -- `if df.empty: return`
                  | some lastApp =>
                    let bars := rollingAppend cfg.rolling_bars st.bars df2
                    .ok ⟨{ st with bars := bars, last_candle_time := some lastApp.time },
                         df2, some count⟩

/-- The externally visible steps `MT5Stream.poll` takes after fetching new ticks, in
program order: handing the new frame to `_append_ticks`, then calling
`_fetch_completed_candles`. -/
inductive PollEvent where
  | ingest (df : List RawTick)
  | aggregate
deriving DecidableEq

/-- Result of `MT5Stream.poll`: state after the call, the returned frame of new ticks,
the buffer operations performed in order, and the exception if one escaped (the state then
reflects the mutations made before the raise). -/
structure PollResult where
  state : StreamState
  new_ticks : List RawTick
  events : List PollEvent
  err : Option String
deriving DecidableEq

/-- `MT5Stream.poll` (stream.py lines 129-140). -/
def poll (cfg : StreamConfig) (st : StreamState) (infoTick : Option TickInfo)
    (ticksResp : Option (List RawTick)) (candleTick : Option TickInfo)
    (ratesResp : Option (List Rate)) : PollResult :=
  let fr := fetchNewTicks st infoTick ticksResp
  let st1 := fr.1
  let df_new := fr.2
  if df_new.isEmpty then ⟨st1, df_new, [], none⟩
  else
    let st2 := { st1 with ticks := rollingAppend cfg.rolling_ticks st1.ticks df_new }
    if pyTruthy cfg.bars_timeframe then
      match fetchCompletedCandles cfg st2 candleTick ratesResp with
      | .ok cr => ⟨cr.state, df_new, [.ingest df_new, .aggregate], none⟩
      | .error e => ⟨st2, df_new, [.ingest df_new, .aggregate], some e⟩
    else ⟨st2, df_new, [.ingest df_new], none⟩

/-- A call made against the external feed, for observability of side effects. -/
inductive FeedCall where
  | initTerminal
  | symbolSelect (symbol : String)
deriving DecidableEq

/-- Result of `MT5Stream.start`: state after the call, whether a new background thread
was spawned, the feed calls issued (in order), and the exception if one escaped. -/
structure StartResult where
  state : StreamState
  spawnedThread : Bool
  feedCalls : List FeedCall
  err : Option String
deriving DecidableEq

/-- `MT5Stream.start` (stream.py lines 106-119).  `connOutcome` / `symOutcome` are the
outcomes of `ensure_connection` / `ensure_symbol` (which call `mt5.initialize` and
`mt5.symbol_select`); both run BEFORE the `if self._running: return` guard. -/
def start (cfg : StreamConfig) (st : StreamState)
    (connOutcome : Except String Unit) (symOutcome : Except String Unit) : StartResult :=
  match connOutcome with
  | .error e => ⟨st, false, [.initTerminal], some e⟩
  | .ok _ =>
    match symOutcome with
    | .error e => ⟨st, false, [.initTerminal, .symbolSelect cfg.symbol], some e⟩
    | .ok _ =>
      if st.running then ⟨st, false, [.initTerminal, .symbolSelect cfg.symbol], none⟩
      else ⟨{ st with running := true }, true,
            [.initTerminal, .symbolSelect cfg.symbol], none⟩

/-- `ensure_connection` (connection.py lines 9-28): raises `MT5ConnectionError` when
`mt5.initialize` reports failure.  `initOk` is that report, `lastError` the
`mt5.last_error()` diagnostic. -/
def ensure_connection (initOk : Bool) (lastError : Int) : Except String Unit :=
  if initOk then .ok () else .error ("MT5ConnectionError: " ++ toString lastError)

/-- `ensure_symbol` (connection.py lines 31-38): raises `MT5SymbolError` when
`mt5.symbol_select` reports failure. -/
def ensure_symbol (selectOk : Bool) (symbol : String) : Except String Unit :=
  if selectOk then .ok ()
  else .error ("Could not select symbol " ++ symbol ++ " in Market Watch.")

/-- `reconnect` (connection.py lines 41-62): `mt5.shutdown` wrapped in a bare
`try/except: pass` (so `shutdownRaises` never surfaces), a settle sleep, then
`ensure_connection` and — when a symbol is configured — `ensure_symbol`, both of which may
raise out of `reconnect`. -/
def reconnect (_shutdownRaises : Bool) (initOk : Bool) (lastError : Int)
    (selectOk : Bool) (symbol : Option String) : Except String Unit :=
  match ensure_connection initOk lastError with
  | .error e => .error e
  | .ok _ =>
    match symbol with
    | some s => ensure_symbol selectOk s
    | none => .ok ()

/-- One iteration of the body of `MT5Stream._loop` (stream.py lines 146-153).
`tryBlock` is the outcome of the guarded block (`self.poll()` plus the optional callback
invocation); `reconnectOutcome` is what `self._reconnect()` would do if invoked.  The
`except Exception:` handler swallows the try-block's exception and runs `_reconnect()`;
an exception raised by `_reconnect()` itself is inside the handler, caught by nothing,
and so propagates out of the loop. -/
def loopIter (tryBlock : Except String (List RawTick))
    (reconnectOutcome : Except String Unit) : Except String Unit :=
  match tryBlock with
  | .ok _ => .ok ()
  | .error _ => reconnectOutcome

/-- `MT5Stream._loop` run over a finite schedule of iterations (the `while self._running`
loop, stopped after the listed iterations by `stop()` clearing the flag).  Each schedule
entry gives that iteration's try-block outcome and its reconnect outcome.  Returns the
number of completed iterations, or the exception that escaped the loop body and killed
the background thread. -/
def runLoop : List (Except String (List RawTick) × Except String Unit) →
    Except String Nat
  | [] => .ok 0
  | (t, r) :: rest =>
    match loopIter t r with
    | .ok _ =>
      match runLoop rest with
      | .ok n => .ok (n + 1)
      | .error e => .error e
    | .error e => .error e

/-! ## Concrete fixtures used by witnesses, scenarios and counterexamples -/

/-- A tick whose feed sequence identifier (`time_msc`) is `msc`. -/
def mkTick (msc : Nat) : RawTick := ⟨msc / 1000, 0, 0, 0, 0, msc⟩

/-- An engine configured with M1 aggregation (the class docstring's example values). -/
def cfgM1 : StreamConfig := ⟨"US100", 10000, 2000, some "M1"⟩

/-- An engine configured without aggregation. -/
def cfgNoAgg : StreamConfig := ⟨"US100", 10000, 2000, none⟩

/-- The broker rate record for the 00:01 interval (period start = 60 s after the epoch
midnight). -/
def rate60 : Rate := ⟨60, 1, 2, 0, 1, 10, 2, 100⟩

/-- An engine state whose background task is already running. -/
def runningState : StreamState := { initState with running := true }

/-! ## Helper lemmas -/

/-- If every tick of the feed response is at or below the frontier (including the
`None`/empty responses), `_fetch_new_ticks` returns an empty frame and leaves the state
untouched. -/
theorem fetchNewTicks_stale (st : StreamState) (it : Option TickInfo)
    (ticksResp : Option (List RawTick))
    (h : ∀ l, ticksResp = some l → ∀ t ∈ l, t.time_msc ≤ st.last_tick_msc) :
    fetchNewTicks st it ticksResp = (st, []) := by
  cases ticksResp with
  | none => rfl
  | some l =>
    have hall := h l rfl
    have hfilter : l.filter (fun t => st.last_tick_msc < t.time_msc) = [] := by
      refine List.filter_eq_nil_iff.mpr ?_
      intro a ha
      simpa using hall a ha
    unfold fetchNewTicks
    by_cases hl : l.isEmpty <;> simp [hl, hfilter]

/-- `_fetch_new_ticks` only ever rewrites the `_last_tick_msc` frontier: the buffers and
the rest of the state are untouched. -/
theorem fetchNewTicks_only_frontier (st : StreamState) (it : Option TickInfo)
    (ticksResp : Option (List RawTick)) :
    (fetchNewTicks st it ticksResp).1.ticks = st.ticks ∧
    (fetchNewTicks st it ticksResp).1.bars = st.bars ∧
    (fetchNewTicks st it ticksResp).1.last_candle_time = st.last_candle_time ∧
    (fetchNewTicks st it ticksResp).1.running = st.running := by
  unfold fetchNewTicks
  cases ticksResp with
  | none => exact ⟨rfl, rfl, rfl, rfl⟩
  | some l =>
    by_cases hl : l.isEmpty
    · simp [hl]
    · simp only [hl, Bool.false_eq_true, if_false]
      cases hf : l.filter (fun t => st.last_tick_msc < t.time_msc) with
      | nil => exact ⟨rfl, rfl, rfl, rfl⟩
      | cons t rest => exact ⟨rfl, rfl, rfl, rfl⟩

/-- `_fetch_completed_candles` never touches the tick buffer or the frontier. -/
theorem fetchCompletedCandles_preserves_ticks (cfg : StreamConfig) (st : StreamState)
    (tickOpt : Option TickInfo) (ratesResp : Option (List Rate))
    (cr : CandleFetchResult)
    (h : fetchCompletedCandles cfg st tickOpt ratesResp = .ok cr) :
    cr.state.ticks = st.ticks ∧ cr.state.last_tick_msc = st.last_tick_msc := by
  unfold fetchCompletedCandles at h
  repeat' (first | split at h | simp only [] at h)
  all_goals first
    | (injection h with h; subst h; exact ⟨rfl, rfl⟩)
    | (exact absurd h (by simp))

/-- The length in seconds of one aggregation interval of each supported timeframe
(the boundary grid the spec describes: minute-of-hour, 5- and 15-minute grouping,
top-of-hour, midnight). -/
def tfWidth : String → Nat
  | "M1" => 60
  | "M5" => 300
  | "M15" => 900
  | "H1" => 3600
  | "D1" => 86400
  | _ => 0

/-! ## Claim theorems -/

/-- C8: for each of the five supported timeframes the period calendar truncates down to
the enclosing boundary anchored at UTC midnight (the period start is at or below the
instant, aligned to the interval width, and the instant lies inside the interval), the
next-boundary function returns a strictly greater instant, and the three concrete
boundary equations of the spec hold:
`period_start(2024-01-01T00:07:31, M5) = 2024-01-01T00:05:00`,
`period_start(2024-01-01T23:59:59, D1) = 2024-01-01T00:00:00`,
`next_boundary(2024-01-01T00:59:00, H1) = 2024-01-01T01:00:00`. -/
theorem period_calendar_boundary_correct :
    (∀ (ts : Nat) (tf : String), tf ∈ (["M1", "M5", "M15", "H1", "D1"] : List String) →
      getPeriodStart (some tf) ts ≤ ts ∧
      getPeriodStart (some tf) ts % tfWidth tf = 0 ∧
      ts < getPeriodStart (some tf) ts + tfWidth tf ∧
      ∃ v, get_next_candle_time ts tf = .ok v ∧ ts < v) ∧
    getPeriodStart (some "M5") 1704067651 = 1704067500 ∧
    getPeriodStart (some "D1") 1704153599 = 1704067200 ∧
    get_next_candle_time 1704070740 "H1" = .ok 1704070800 := by
  refine ⟨?_, rfl, rfl, rfl⟩
  intro ts tf h
  simp only [List.mem_cons, List.not_mem_nil, or_false] at h
  rcases h with rfl | rfl | rfl | rfl | rfl <;>
    simp only [getPeriodStart, get_next_candle_time, tfWidth, Option.some.injEq,
      String.reduceEq, reduceIte]
  · exact ⟨by omega, by omega, by omega, _, rfl, by omega⟩
  · refine ⟨by omega, by omega, by omega, ?_⟩
    by_cases h : 60 ≤ (ts / 60 % 60 / 5 + 1) * 5
    · rw [if_pos h]; exact ⟨_, rfl, by omega⟩
    · rw [if_neg h]; exact ⟨_, rfl, by omega⟩
  · refine ⟨by omega, by omega, by omega, ?_⟩
    by_cases h : 60 ≤ (ts / 60 % 60 / 15 + 1) * 15
    · rw [if_pos h]; exact ⟨_, rfl, by omega⟩
    · rw [if_neg h]; exact ⟨_, rfl, by omega⟩
  · exact ⟨by omega, by omega, by omega, _, rfl, by omega⟩
  · exact ⟨by omega, by omega, by omega, _, rfl, by omega⟩

/-- Witness for C8 at `ts = 1000`, `tf = "M15"`. -/
theorem period_calendar_boundary_correct_witness :
    getPeriodStart (some "M15") 1000 ≤ 1000 ∧
    getPeriodStart (some "M15") 1000 % tfWidth "M15" = 0 ∧
    1000 < getPeriodStart (some "M15") 1000 + tfWidth "M15" ∧
    ∃ v, get_next_candle_time 1000 "M15" = .ok v ∧ 1000 < v :=
  period_calendar_boundary_correct.1 1000 "M15" (by decide)

/-- C3 counterexample: for the unsupported timeframe value "M2", `_get_period_start` does
NOT fail fast — its `else` branch silently returns the input timestamp unchanged (a
silently defaulted value), even though `get_next_candle_time` does raise.  So the claim
that both functions fail fast on an unsupported timeframe is false. -/
theorem period_start_silently_defaults_on_bad_timeframe :
    getPeriodStart (some "M2") 12345 = 12345 ∧
    get_next_candle_time 12345 "M2" = .error ("Unsupported timeframe: " ++ "M2") :=
  ⟨rfl, rfl⟩

/-- C3 (amended): on a timeframe outside the five supported ones,
`get_next_candle_time` fails fast with the `ValueError`, but `_get_period_start`
silently returns the timestamp unchanged; for the five supported timeframes
`get_next_candle_time` always succeeds (and both functions are pure and total by
construction). -/
theorem timeframe_validation_asymmetric :
    (∀ (ts : Nat) (tf : String), tf ∉ (["M1", "M5", "M15", "H1", "D1"] : List String) →
      get_next_candle_time ts tf = .error ("Unsupported timeframe: " ++ tf) ∧
      getPeriodStart (some tf) ts = ts) ∧
    (∀ (ts : Nat) (tf : String), tf ∈ (["M1", "M5", "M15", "H1", "D1"] : List String) →
      ∃ v, get_next_candle_time ts tf = .ok v) := by
  constructor
  · intro ts tf h
    simp only [List.mem_cons, List.not_mem_nil, or_false, not_or] at h
    obtain ⟨h1, h2, h3, h4, h5⟩ := h
    exact ⟨by simp [get_next_candle_time, h1, h2, h3, h4, h5],
           by simp [getPeriodStart, h1, h2, h3, h4, h5]⟩
  · intro ts tf h
    simp only [List.mem_cons, List.not_mem_nil, or_false] at h
    rcases h with rfl | rfl | rfl | rfl | rfl
    · exact ⟨_, rfl⟩
    · simp only [get_next_candle_time, String.reduceEq, reduceIte]
      by_cases h : 60 ≤ (ts / 60 % 60 / 5 + 1) * 5
      · rw [if_pos h]; exact ⟨_, rfl⟩
      · rw [if_neg h]; exact ⟨_, rfl⟩
    · simp only [get_next_candle_time, String.reduceEq, reduceIte]
      by_cases h : 60 ≤ (ts / 60 % 60 / 15 + 1) * 15
      · rw [if_pos h]; exact ⟨_, rfl⟩
      · rw [if_neg h]; exact ⟨_, rfl⟩
    · exact ⟨_, rfl⟩
    · exact ⟨_, rfl⟩

/-- Witness for C3's amended theorem at "M7" (unsupported) and "H1" (supported). -/
theorem timeframe_validation_asymmetric_witness :
    (get_next_candle_time 777 "M7" = .error ("Unsupported timeframe: " ++ "M7") ∧
     getPeriodStart (some "M7") 777 = 777) ∧
    ∃ v, get_next_candle_time 777 "H1" = .ok v :=
  ⟨timeframe_validation_asymmetric.1 777 "M7" (by decide),
   timeframe_validation_asymmetric.2 777 "H1" (by decide)⟩

/-- A state whose last closed candle is the 00:01 period (last_candle_time = 60). -/
def stLct60 : StreamState := { initState with last_candle_time := some 60 }

/-- C5: when `last_candle_time` is set and no period boundary has elapsed
(`period_start(now) <= period_start(last_candle_time)`), a second `_fetch_completed_candles`
call returns without appending anything, leaves the whole state (bar buffer and
`last_candle_time` included) unchanged, and never reaches the `mt5.copy_rates_from`
call (`ratesRequested = none`), whatever the feed would have answered. -/
theorem maybe_fetch_idempotent_without_boundary (cfg : StreamConfig) (st : StreamState)
    (t now : Nat) (ratesResp : Option (List Rate))
    (hl : st.last_candle_time = some t)
    (hp : getPeriodStart cfg.bars_timeframe now ≤ getPeriodStart cfg.bars_timeframe t) :
    fetchCompletedCandles cfg st (some ⟨now⟩) ratesResp = .ok ⟨st, [], none⟩ := by
  rcases htf : cfg.bars_timeframe with _ | tf
  · simp [fetchCompletedCandles, htf]
  · rw [htf] at hp
    by_cases he : tf.isEmpty
    · simp [fetchCompletedCandles, htf, he]
    · simp [fetchCompletedCandles, htf, he, hl, hp]

/-- Witness for C5: M1 engine, last closed period 00:01 (60), now 00:01:40 (100). -/
theorem maybe_fetch_idempotent_without_boundary_witness :
    fetchCompletedCandles cfgM1 stLct60 (some ⟨100⟩) (some [rate60]) =
      .ok ⟨stLct60, [], none⟩ :=
  maybe_fetch_idempotent_without_boundary cfgM1 stLct60 60 100 (some [rate60]) rfl
    (by decide)

/-- C1 (code-bug evaluation): on the first fetch (`last_candle_time = None`) with feed
time 90 (inside the still-forming 00:01 M1 period) and a rates response consisting of a
single record — the forming 00:01 candle itself (`time = 60`) — the code appends that
candle to the bar buffer and sets `last_candle_time` to it: the `if len(df) > 1` guard at
stream.py line 263 skips the drop-the-forming-record step whenever exactly one record
survives filtering, so a candle with `period_start == period_start(now)` is stored,
contradicting the claimed invariant (and the class docstring "Bar aggregation appends
only closed bars").  The second conjunct checks the appended record's period IS the
current (forming) period. -/
theorem forming_candle_appended_from_single_record :
    fetchCompletedCandles cfgM1 initState (some ⟨90⟩) (some [rate60]) =
      .ok ⟨{ initState with bars := [rate60], last_candle_time := some 60 },
           [rate60], some 2000⟩ ∧
    getPeriodStart cfgM1.bars_timeframe rate60.time =
      getPeriodStart cfgM1.bars_timeframe 90 :=
  ⟨rfl, rfl⟩

/-- C4 counterexample: `start()` on an engine already in the Running state is NOT free of
observable actions — `_ensure_connection()` and `_ensure_symbol()` run BEFORE the
`if self._running: return` guard (stream.py lines 113-116), so the feed initialize /
symbol-select calls are issued again, and a connection failure even raises out of
`start()`. -/
theorem start_on_running_engine_acts_observably :
    (start cfgM1 runningState (.error "MT5ConnectionError: -10003") (.ok ())).err =
      some "MT5ConnectionError: -10003" ∧
    (start cfgM1 runningState (.ok ()) (.ok ())).feedCalls =
      [.initTerminal, .symbolSelect "US100"] :=
  ⟨rfl, rfl⟩

/-- C4 (amended): provided the connection and symbol checks succeed, calling `start()` on
an engine already in the Running state leaves the engine state unchanged and spawns no
second background task — but it does re-issue the connection and symbol-select feed
calls first. -/
theorem start_noop_when_running_after_checks (cfg : StreamConfig) (st : StreamState)
    (h : st.running = true) :
    start cfg st (.ok ()) (.ok ()) =
      ⟨st, false, [.initTerminal, .symbolSelect cfg.symbol], none⟩ := by
  unfold start
  simp [h]

/-- Witness for C4's amended theorem on a running engine. -/
theorem start_noop_when_running_after_checks_witness :
    start cfgM1 runningState (.ok ()) (.ok ()) =
      ⟨runningState, false, [.initTerminal, .symbolSelect "US100"], none⟩ :=
  start_noop_when_running_after_checks cfgM1 runningState rfl

/-- C2 counterexample: one loop iteration whose `poll()` raises and whose
`_reconnect()` (here: `mt5.initialize` reporting failure, so `ensure_connection` raises
`MT5ConnectionError`) raises as well.  The reconnect exception is raised inside the
`except Exception:` handler (stream.py line 152), which no surrounding handler catches,
so it escapes the loop body and terminates the background task — the claim that the
failure is swallowed and the loop keeps running is false. -/
theorem loop_dies_when_reconnect_raises :
    runLoop [(.error "symbol_info_tick failed",
              reconnect false false (-1) true (some "US100"))] =
      .error ("MT5ConnectionError: " ++ toString (-1 : Int)) :=
  rfl

/-- C2 (amended): an exception in the try-block (poll or callback) is swallowed and
control passes to `_reconnect()` — the iteration's outcome is exactly reconnect's
outcome — and as long as reconnect itself does not raise, the loop survives every
scheduled iteration; but a reconnect failure propagates (see the counterexample). -/
theorem loop_survives_when_reconnect_ok
    (iters : List (Except String (List RawTick) × Except String Unit))
    (h : ∀ p ∈ iters, p.2 = .ok ()) :
    runLoop iters = .ok iters.length ∧
    ∀ (e : String) (r : Except String Unit), loopIter (.error e) r = r := by
  refine ⟨?_, fun e r => rfl⟩
  induction iters with
  | nil => rfl
  | cons p rest ih =>
    obtain ⟨t, r⟩ := p
    have hr : r = .ok () := h (t, r) (List.mem_cons_self _ _)
    have hrest : ∀ q ∈ rest, q.2 = .ok () := fun q hq => h q (List.mem_cons_of_mem _ hq)
    subst hr
    cases t with
    | ok v => simp [runLoop, loopIter, ih hrest]
    | error e => simp [runLoop, loopIter, ih hrest]

/-- Witness for C2's amended theorem: a failing poll followed by a succeeding reconnect
completes the iteration, and the iteration outcome equals the reconnect outcome. -/
theorem loop_survives_when_reconnect_ok_witness :
    runLoop [(.error "poll raised", .ok ())] = .ok 1 ∧
    loopIter (.error "poll raised") (.error "reconnect raised") = .error "reconnect raised" :=
  ⟨(loop_survives_when_reconnect_ok [(.error "poll raised", .ok ())]
      (fun p hp => by rcases List.mem_singleton.mp hp with rfl; rfl)).1,
   (loop_survives_when_reconnect_ok [] (fun p hp => absurd hp (List.not_mem_nil p))).2
     "poll raised" (.error "reconnect raised")⟩

/-- C10: when the feed's tick response is `None`, empty, or contains only ticks at or
below the `_last_tick_msc` frontier, `poll()` returns an empty frame and the whole engine
state is untouched — frontier, tick buffer, bar buffer and `last_candle_time` — and no
buffer operation happens at all: in particular `_fetch_completed_candles` is never
invoked (no `.aggregate` event), even if a timeframe is configured and a period boundary
has elapsed. -/
theorem poll_without_new_ticks_is_frame (cfg : StreamConfig) (st : StreamState)
    (infoTick : Option TickInfo) (ticksResp : Option (List RawTick))
    (candleTick : Option TickInfo) (ratesResp : Option (List Rate))
    (h : ∀ l, ticksResp = some l → ∀ t ∈ l, t.time_msc ≤ st.last_tick_msc) :
    poll cfg st infoTick ticksResp candleTick ratesResp = ⟨st, [], [], none⟩ := by
  unfold poll
  rw [fetchNewTicks_stale st infoTick ticksResp h]
  rfl

/-- Witness for C10: stale batch (sequence 0 not above frontier 0), on an engine with M1
aggregation configured, a boundary elapsed (`last_candle_time = none`), and a rates
response available — still a strict no-op. -/
theorem poll_without_new_ticks_is_frame_witness :
    poll cfgM1 initState none (some [mkTick 0]) (some ⟨90⟩) (some [rate60]) =
      ⟨initState, [], [], none⟩ :=
  poll_without_new_ticks_is_frame cfgM1 initState none (some [mkTick 0]) (some ⟨90⟩)
    (some [rate60])
    (fun l hl => by
      obtain rfl : [mkTick 0] = l := Option.some.inj hl
      decide)

/-- C6: tick ingestion is idempotent with respect to the `_last_tick_msc` frontier — a
batch wholly at or below the frontier is a no-op returning empty — and the spec's
scenario holds: after ingesting sequences [101,102,103], a second batch [103,104,105]
yields exactly 104 and 105 as new, advances the frontier to 105, and the buffer holds
all five in insertion order. -/
theorem tick_ingest_frontier_idempotent :
    (∀ (st : StreamState) (it : Option TickInfo) (l : List RawTick),
        (∀ t ∈ l, t.time_msc ≤ st.last_tick_msc) →
        fetchNewTicks st it (some l) = (st, [])) ∧
    (let r1 := poll cfgNoAgg initState none (some [mkTick 101, mkTick 102, mkTick 103])
                 none none
     let r2 := poll cfgNoAgg r1.state none (some [mkTick 103, mkTick 104, mkTick 105])
                 none none
     r1.state.last_tick_msc = 103 ∧
     r2.new_ticks = [mkTick 104, mkTick 105] ∧
     r2.state.last_tick_msc = 105 ∧
     r2.state.ticks = [mkTick 101, mkTick 102, mkTick 103, mkTick 104, mkTick 105]) := by
  refine ⟨?_, by decide⟩
  intro st it l h
  exact fetchNewTicks_stale st it (some l)
    (fun l' hl' => by
      obtain rfl : l = l' := Option.some.inj hl'
      exact h)

/-- Witness for C6's quantified part: a batch at the frontier is a no-op. -/
theorem tick_ingest_frontier_idempotent_witness :
    fetchNewTicks initState none (some [mkTick 0]) = (initState, []) :=
  tick_ingest_frontier_idempotent.1 initState none [mkTick 0] (by decide)

/-- C9: in a poll cycle that yields new ticks, on an engine with an aggregation timeframe
configured, the new frame is handed to the tick buffer and `_fetch_completed_candles` is
invoked in that same cycle, in that order: the event trace is exactly
`[ingest new_ticks, aggregate]`, and the tick-buffer append is already visible in the
state on which aggregation runs (the final state's tick buffer is the rolling append of
the new frame). -/
theorem poll_ingests_then_aggregates (cfg : StreamConfig) (st : StreamState)
    (infoTick : Option TickInfo) (ticksResp : Option (List RawTick))
    (candleTick : Option TickInfo) (ratesResp : Option (List Rate))
    (htf : pyTruthy cfg.bars_timeframe = true)
    (hne : (fetchNewTicks st infoTick ticksResp).2 ≠ []) :
    (poll cfg st infoTick ticksResp candleTick ratesResp).new_ticks =
      (fetchNewTicks st infoTick ticksResp).2 ∧
    (poll cfg st infoTick ticksResp candleTick ratesResp).events =
      [.ingest (poll cfg st infoTick ticksResp candleTick ratesResp).new_ticks,
       .aggregate] ∧
    (poll cfg st infoTick ticksResp candleTick ratesResp).state.ticks =
      rollingAppend cfg.rolling_ticks st.ticks
        (poll cfg st infoTick ticksResp candleTick ratesResp).new_ticks := by
  obtain ⟨hts, _, _, _⟩ := fetchNewTicks_only_frontier st infoTick ticksResp
  unfold poll
  set fr := fetchNewTicks st infoTick ticksResp with hfr
  have hemp : fr.2.isEmpty = false := by
    cases hl : fr.2 with
    | nil => exact absurd hl hne
    | cons a l => rfl
  simp only [hemp, Bool.false_eq_true, if_false, htf, if_true]
  split
  case h_1 cr heq =>
    refine ⟨rfl, rfl, ?_⟩
    have hp := fetchCompletedCandles_preserves_ticks cfg
      { fr.1 with ticks := rollingAppend cfg.rolling_ticks fr.1.ticks fr.2 }
      candleTick ratesResp cr heq
    rw [hp.1]
    simp [hts]
  case h_2 e heq =>
    refine ⟨rfl, rfl, ?_⟩
    simp [hts]

/-- Witness for C9: one fresh tick on the M1 engine. -/
theorem poll_ingests_then_aggregates_witness :
    (poll cfgM1 initState none (some [mkTick 7]) none none).new_ticks =
      (fetchNewTicks initState none (some [mkTick 7])).2 ∧
    (poll cfgM1 initState none (some [mkTick 7]) none none).events =
      [.ingest (poll cfgM1 initState none (some [mkTick 7]) none none).new_ticks,
       .aggregate] ∧
    (poll cfgM1 initState none (some [mkTick 7]) none none).state.ticks =
      rollingAppend cfgM1.rolling_ticks initState.ticks
        (poll cfgM1 initState none (some [mkTick 7]) none none).new_ticks :=
  poll_ingests_then_aggregates cfgM1 initState none (some [mkTick 7]) none none rfl
    (by decide)

/-- Taking the first `n` of `u ++ v` only ever probes the first `n` elements of `v`. -/
theorem take_append_take {α : Type} (n : Nat) (u v : List α) :
    (u ++ v.take n).take n = (u ++ v).take n := by
  rw [List.take_append_eq_append_take, List.take_append_eq_append_take, List.take_take,
    Nat.min_eq_left (Nat.sub_le n u.length)]

/-- Keeping only the last `n` entries commutes with having already truncated the left
part to its last `n` entries. -/
theorem rtake_append_rtake {α : Type} (n : Nat) (u v : List α) :
    (u.rtake n ++ v).rtake n = (u ++ v).rtake n := by
  simp only [List.rtake_eq_reverse_take_reverse, List.reverse_append, List.reverse_reverse]
  rw [take_append_take]

/-- For a positive capacity, one rolling append equals keeping the last `cap` entries of
the concatenation (`List.rtake cap`).  (For `cap = 0` this fails: see the `xs[-0:]`
remark on `pySliceLast`.) -/
theorem rollingAppend_eq_rtake {α : Type} (cap : Nat) (hcap : 1 ≤ cap)
    (buf b : List α) : rollingAppend cap buf b = (buf ++ b).rtake cap := by
  have hmerge : (if buf.isEmpty then b else buf ++ b) = buf ++ b := by cases buf <;> rfl
  show (if cap < (if buf.isEmpty then b else buf ++ b).length then
          pySliceLast cap (if buf.isEmpty then b else buf ++ b)
        else (if buf.isEmpty then b else buf ++ b)) = (buf ++ b).rtake cap
  rw [hmerge]
  by_cases hlen : cap < (buf ++ b).length
  · rw [if_pos hlen]
    unfold pySliceLast
    rw [if_neg (by omega : ¬cap = 0)]
    rfl
  · rw [if_neg hlen]
    unfold List.rtake
    rw [show (buf ++ b).length - cap = 0 from by omega, List.drop_zero]

/-- Folding rolling appends over a schedule of batches, starting from a buffer that is
the last `cap` entries of some history, yields the last `cap` entries of the extended
history. -/
theorem foldl_rollingAppend_rtake {α : Type} (cap : Nat) (hcap : 1 ≤ cap)
    (batches : List (List α)) (acc : List α) :
    batches.foldl (rollingAppend cap) (acc.rtake cap) =
      (acc ++ batches.flatten).rtake cap := by
  induction batches generalizing acc with
  | nil => simp
  | cons b bs ih =>
    rw [List.foldl_cons, rollingAppend_eq_rtake cap hcap, rtake_append_rtake, ih (acc ++ b),
      List.flatten_cons, List.append_assoc]

/-- C7 (amended): for every positive capacity, after any sequence of rolling appends
starting from the empty buffer, the buffer length is at most the capacity and the buffer
contents are exactly the last `cap` entries of everything ever appended, in insertion
order (FIFO eviction from the front, never reordered).  This covers both buffers: the
tick buffer (`_append_ticks`, capacity `rolling_ticks`) and the bar buffer (the identical
truncation in `_fetch_completed_candles`, capacity `rolling_bars`) use the same
`rollingAppend` logic. -/
theorem buffers_bounded_fifo (α : Type) (cap : Nat) (hcap : 1 ≤ cap)
    (batches : List (List α)) :
    (batches.foldl (rollingAppend cap) []).length ≤ cap ∧
    batches.foldl (rollingAppend cap) [] = batches.flatten.rtake cap := by
  have key : batches.foldl (rollingAppend cap) [] = batches.flatten.rtake cap := by
    have h := foldl_rollingAppend_rtake cap hcap batches ([] : List α)
    rw [List.rtake_nil] at h
    simpa using h
  refine ⟨?_, key⟩
  rw [key]
  unfold List.rtake
  rw [List.length_drop]
  omega

/-- Witness for C7's amended theorem: capacity 2, batches [1,2] then [3] — buffer ends as
the last two entries [2,3]. -/
theorem buffers_bounded_fifo_witness :
    ((([[mkTick 1, mkTick 2], [mkTick 3]] : List (List RawTick)).foldl
        (rollingAppend 2) []).length ≤ 2) ∧
    ([[mkTick 1, mkTick 2], [mkTick 3]] : List (List RawTick)).foldl (rollingAppend 2) [] =
      ([[mkTick 1, mkTick 2], [mkTick 3]] : List (List RawTick)).flatten.rtake 2 :=
  buffers_bounded_fifo RawTick 2 (by decide) [[mkTick 1, mkTick 2], [mkTick 3]]

/-- C7 counterexample: with capacity 0 (a value the constructor accepts for
`rolling_ticks` / `rolling_bars`), appending one tick leaves the buffer at length 1 > 0:
the truncation slice is `xs[-0:]`, which in Python is `xs[0:]` — the WHOLE buffer — so
the claimed `length ≤ capacity` invariant is violated. -/
theorem buffer_exceeds_zero_capacity :
    ¬ (rollingAppend 0 ([] : List RawTick) [mkTick 1]).length ≤ 0 := by decide
